import Mathlib

/-!
Shallow embedding of the text-art pipeline of `src/main.py`.

Python integers are `Int`; the exact values of Python float expressions are
modelled as rationals, with `int(...)` truncation toward zero (`Int.tdiv` on
numerator and denominator).  Python exceptions are modelled by `Except PyErr`.
The external image codec (PIL) is an opaque collaborator: the source image is
an abstract pair of dimensions plus a sampling function standing for the
resized grayscale pixels.
-/

namespace TextArt

/-- Errors.  The first four model the Python exceptions that actually occur in
`src/main.py`: `FileNotFoundError`, the generic `ValueError` wrapper of
`load_and_process_image`, `IndexError` from list indexing, and `SystemExit`
raised by `sys.exit`.  The last three (`invalidPalette`, `invalidIntensity`,
`invalidWidth`) are the error taxonomy named by the specification
(`InvalidPaletteError`, `InvalidIntensityError`, `InvalidWidthError`); they are
never produced by the embedded code and exist only so that the specified
behaviour can be stated and compared with the actual one. -/
inductive PyErr where
  | fileNotFound
  | valueError
  | indexError
  | systemExit (code : Int)
  | invalidPalette
  | invalidIntensity
  | invalidWidth
deriving DecidableEq

deriving instance DecidableEq for Except

/-- The fixed palette for the `Happy` label (src/main.py line 45). -/
def happySet : List Char := [' ', '.', ':', '*', '+']

/-- The fixed palette for the `Sad` label (src/main.py line 46). -/
def sadSet : List Char := ['.', '-', '=', '#', '@']

/-- The fixed palette for the `Angry` label (src/main.py line 47). -/
def angrySet : List Char := ['#', '@', '&', '%', '+']

/-- The fixed palette for the `Neutral` label (src/main.py line 48), also the
fallback palette for every unrecognized label. -/
def neutralSet : List Char := [' ', '.', ':', '-', '=', '+', '*', '#']

/-- Python `str.capitalize`: first character uppercased, all following
characters lowercased. -/
def pyCapitalize (s : String) : String :=
  match s.data with
  | [] => ""
  | c :: cs => String.mk (c.toUpper :: cs.map Char.toLower)

/-- `get_emotion_based_char_set` (src/main.py lines 34-53): capitalize the
label and look it up in the fixed dictionary, defaulting to the Neutral
palette. -/
def get_emotion_based_char_set (emotion : String) : List Char :=
  if pyCapitalize emotion = "Happy" then happySet
  else if pyCapitalize emotion = "Sad" then sadSet
  else if pyCapitalize emotion = "Angry" then angrySet
  else if pyCapitalize emotion = "Neutral" then neutralSet
  else neutralSet

/-- The index computed on src/main.py line 66:
`int(pixel_intensity / 255 * (len(char_set) - 1))`, i.e. the exact rational
`pixel_intensity * (len - 1) / 255` truncated toward zero. -/
def intensityIndex (pixel_intensity : Int) (char_set : List Char) : Int :=
  Int.tdiv (pixel_intensity * ((char_set.length : Int) - 1)) 255

/-- Python list subscription `l[i]`: a negative index counts from the end of
the list; an index out of the range `[-len, len - 1]` raises `IndexError`. -/
def pyGet (l : List Char) (i : Int) : Except PyErr Char :=
  if i < 0 then
    if i + (l.length : Int) < 0 then .error .indexError
    else
      match l.get? (i + (l.length : Int)).toNat with
      | some c => .ok c
      | none => .error .indexError
  else
    match l.get? i.toNat with
    | some c => .ok c
    | none => .error .indexError

/-- `get_character_for_intensity` (src/main.py lines 55-67): no validation of
the intensity or of the palette; the computed index is applied directly to the
list. -/
def get_character_for_intensity (pixel_intensity : Int) (char_set : List Char) :
    Except PyErr Char :=
  pyGet char_set (intensityIndex pixel_intensity char_set)

/-- The character that `get_character_for_intensity` returns on the success
path: the palette entry at the computed index. -/
def mappedChar (char_set : List Char) (pixel_intensity : Int) : Char :=
  char_set.getD (intensityIndex pixel_intensity char_set).toNat ' '

/-- One row of the rendering loop of `generate_text_art` (src/main.py lines
105-110): map every sample of the row and join the characters. -/
def render_row (row : List Int) (char_set : List Char) : Except PyErr String := do
  let cs ← row.mapM fun p => get_character_for_intensity p char_set
  pure (String.mk cs)

/-- The rendering loop plus final join of `generate_text_art` (src/main.py
lines 103-112): render each grid row in order and join the lines with a single
line break, no trailing line break. -/
def render_grid (grid : List (List Int)) (char_set : List Char) :
    Except PyErr String := do
  let ls ← grid.mapM fun row => render_row row char_set
  pure (String.intercalate "\n" ls)

/-- A decoded source image as seen by the pipeline: only its pixel dimensions
matter to the core (the pixel data lives behind the codec collaborator). -/
structure SrcImage where
  width : Nat
  height : Nat
deriving DecidableEq

/-- Python `int(q)` on the exact value `q`: truncation toward zero. -/
def pyInt (q : ℚ) : Int :=
  Int.tdiv q.num (q.den : Int)

/-- The target height computed on src/main.py line 26:
`int(width * aspect_ratio * 0.5)` with `aspect_ratio = height / width` of the
source.  Exact-rational model of the float expression. -/
def computeHeight (srcW srcH : Nat) (width : Int) : Int :=
  pyInt ((width : ℚ) * ((srcH : ℚ) / (srcW : ℚ)) * (1 / 2))

/-- The height the specification prescribes:
`max(1, round(desiredWidth * aspect_ratio * 0.5))`.  Stated from the spec for
comparison with `computeHeight`; it is not what the source computes. -/
def specHeight (srcW srcH : Nat) (width : Int) : Int :=
  max 1 (round ((width : ℚ) * ((srcH : ℚ) / (srcW : ℚ)) * (1 / 2)))

/-- `load_and_process_image` (src/main.py lines 5-32).  `pathExists` models
`os.path.exists`; `decoded = none` models a codec decode failure
(`Image.open` raising); `sample x y` is the grayscale value the codec hands
back at target coordinate `(x, y)` after resizing.  Every exception raised
inside the `try` block is rewrapped as `ValueError` by the source: a source
width of zero (Python `ZeroDivisionError` in the aspect computation) and a
nonpositive target size (the codec resize rejects width or height below one)
both surface as `valueError`.  There is no width validation of its own. -/
def load_and_process_image (pathExists : Bool) (decoded : Option SrcImage)
    (sample : Nat → Nat → Int) (width : Int) : Except PyErr (List (List Int)) :=
  if pathExists = false then .error .fileNotFound
  else
    match decoded with
    | none => .error .valueError
    | some src =>
      if src.width = 0 then .error .valueError
      else
        let height := computeHeight src.width src.height width
        if width ≤ 0 ∨ height ≤ 0 then .error .valueError
        else .ok ((List.range height.toNat).map fun y =>
          (List.range width.toNat).map fun x => sample x y)

/-- The body of the `try` block of `generate_text_art` (src/main.py lines
95-112): load, pick the palette, render. -/
def pipelineRun (pathExists : Bool) (decoded : Option SrcImage)
    (sample : Nat → Nat → Int) (width : Int) (emotion : String) :
    Except PyErr String :=
  match load_and_process_image pathExists decoded sample width with
  | .error e => .error e
  | .ok grid => render_grid grid (get_emotion_based_char_set emotion)

/-- `generate_text_art` (src/main.py lines 83-116): the whole pipeline runs
inside `try ... except Exception: print(...); sys.exit(1)`, so any failure is
swallowed and replaced by `SystemExit` with status 1. -/
def generate_text_art (pathExists : Bool) (decoded : Option SrcImage)
    (sample : Nat → Nat → Int) (width : Int) (emotion : String) :
    Except PyErr String :=
  match pipelineRun pathExists decoded sample width emotion with
  | .ok s => .ok s
  | .error _ => .error (.systemExit 1)

/-! ## Helper lemmas -/

/-- Python subscription on the empty list fails for every index. -/
theorem pyGet_nil (i : Int) : pyGet [] i = .error .indexError := by
  unfold pyGet
  split
  · simp
  · simp

/-- The length of a string built from a list of characters. -/
theorem strMk_length (cs : List Char) : (String.mk cs).length = cs.length := rfl

/-- On a non-empty palette and an in-range intensity, the mapper hits the
success path: the index is in bounds and the palette entry at the index is
returned. -/
theorem get_character_ok (P : List Char) (i : Int) (hP : P ≠ [])
    (h0 : 0 ≤ i) (h1 : i ≤ 255) :
    get_character_for_intensity i P = .ok (mappedChar P i) ∧
    0 ≤ intensityIndex i P ∧ intensityIndex i P ≤ (P.length : Int) - 1 ∧
    P.get? (intensityIndex i P).toNat = some (mappedChar P i) := by
  have hn : 1 ≤ (P.length : Int) := by
    have := List.length_pos.2 hP
    omega
  have hm : 0 ≤ i * ((P.length : Int) - 1) := mul_nonneg h0 (by omega)
  have hub : i * ((P.length : Int) - 1) ≤ 255 * ((P.length : Int) - 1) :=
    mul_le_mul_of_nonneg_right h1 (by omega)
  have hidx : intensityIndex i P = (i * ((P.length : Int) - 1)) / 255 := by
    unfold intensityIndex
    exact Int.tdiv_eq_ediv hm (by norm_num)
  have hb : 0 ≤ intensityIndex i P ∧ intensityIndex i P ≤ (P.length : Int) - 1 := by
    rw [hidx]
    set m := i * ((P.length : Int) - 1) with hmdef
    omega
  have hlt : (intensityIndex i P).toNat < P.length := by omega
  have hget : P.get? (intensityIndex i P).toNat = some (mappedChar P i) := by
    rw [List.get?_eq_get hlt]
    unfold mappedChar
    rw [List.getD_eq_get?, List.get?_eq_get hlt]
    rfl
  refine ⟨?_, hb.1, hb.2, hget⟩
  unfold get_character_for_intensity pyGet
  rw [if_neg (by omega : ¬ intensityIndex i P < 0), hget]

/-- `mapM` over `Except` succeeds pointwise: if every element maps to a
success, the whole list maps to the list of successes, in order. -/
theorem mapM_ok {α β : Type} (f : α → Except PyErr β) (g : α → β) (l : List α)
    (h : ∀ a ∈ l, f a = .ok (g a)) : l.mapM f = .ok (l.map g) := by
  induction l with
  | nil => rfl
  | cons a l ih =>
    rw [List.mapM_cons, h a (List.mem_cons_self a l),
      ih fun b hb => h b (List.mem_cons_of_mem a hb)]
    rfl

/-- Every label selects one of the four fixed palettes. -/
theorem emotion_palette_cases (s : String) :
    get_emotion_based_char_set s = happySet ∨
    get_emotion_based_char_set s = sadSet ∨
    get_emotion_based_char_set s = angrySet ∨
    get_emotion_based_char_set s = neutralSet := by
  unfold get_emotion_based_char_set
  split
  · exact Or.inl rfl
  · split
    · exact Or.inr (Or.inl rfl)
    · split
      · exact Or.inr (Or.inr (Or.inl rfl))
      · split
        · exact Or.inr (Or.inr (Or.inr rfl))
        · exact Or.inr (Or.inr (Or.inr rfl))

/-- Truncation toward zero agrees with the floor on nonnegative rationals. -/
theorem pyInt_eq_floor {q : ℚ} (h : 0 ≤ q) : pyInt q = ⌊q⌋ := by
  unfold pyInt
  rw [Int.tdiv_eq_ediv (Rat.num_nonneg.2 h) (by positivity)]
  exact Rat.floor_def.symm

/-- The computed target height is the floor of `width * srcH / (2 * srcW)`. -/
theorem computeHeight_eq (srcW srcH : Nat) (w : Int) (hW : 0 < srcW)
    (hw : 0 ≤ w) : computeHeight srcW srcH w = (w * srcH) / (2 * (srcW : Int)) := by
  unfold computeHeight
  have hq : (w : ℚ) * ((srcH : ℚ) / (srcW : ℚ)) * (1 / 2) =
      ((w * (srcH : Int) : Int) : ℚ) / ((2 * srcW : ℕ) : ℚ) := by
    push_cast
    rw [mul_assoc, div_mul_div_comm, mul_one, ← mul_div_assoc,
      mul_comm (srcW : ℚ) 2]
  have hnum : (0 : ℚ) ≤ ((w * (srcH : Int) : Int) : ℚ) := by
    have h := mul_nonneg hw (Int.natCast_nonneg srcH)
    exact_mod_cast h
  have hden : ((2 * srcW : ℕ) : Int) = 2 * (srcW : Int) := by push_cast; ring
  rw [hq, pyInt_eq_floor (div_nonneg hnum (by positivity)),
    Rat.floor_intCast_div_natCast, hden]

/-! ## Claims -/

/-- C1, counterexample: for a 1x1 source and desiredWidth 1 the code computes
height `int(1 * 1 * 0.5) = 0`, while the claimed formula
`max(1, round(1 * 1 * 0.5))` gives 1: the height is truncated, not rounded,
and is not clamped to 1. -/
theorem c1_height_counterexample :
    computeHeight 1 1 1 = 0 ∧ specHeight 1 1 1 = 1 ∧
    computeHeight 1 1 1 ≠ specHeight 1 1 1 := by
  have h1 : computeHeight 1 1 1 = 0 := by
    norm_num [computeHeight, pyInt]
    decide
  have h2 : specHeight 1 1 1 = 1 := by
    norm_num [specHeight, round_eq]
  exact ⟨h1, h2, by rw [h1, h2]; decide⟩

/-- C1, amended: for every source with positive width and every
desiredWidth >= 1, the computed grid height is the truncation
`int(desiredWidth * aspect_ratio * 0.5)`, i.e. the floor
`(desiredWidth * source_height) div (2 * source_width)`, with no clamping: it
is 0, not 1, whenever `desiredWidth * source_height < 2 * source_width`. -/
theorem c1_height_truncation (srcW srcH : Nat) (w : Int) (hW : 0 < srcW)
    (hw : 1 ≤ w) :
    computeHeight srcW srcH w = (w * srcH) / (2 * (srcW : Int)) ∧
    (w * srcH < 2 * (srcW : Int) → computeHeight srcW srcH w = 0) := by
  have h := computeHeight_eq srcW srcH w hW (by omega)
  refine ⟨h, fun hlt => ?_⟩
  rw [h]
  exact Int.ediv_eq_zero_of_lt
    (mul_nonneg (by omega) (Int.natCast_nonneg srcH)) hlt

/-- C1, witness for the amended theorem at a 2x3 source and desiredWidth 5:
the height is `int(5 * 1.5 * 0.5) = int(3.75) = 3`. -/
theorem c1_height_truncation_witness : computeHeight 2 3 5 = 3 := by
  have h := (c1_height_truncation 2 3 5 (by decide) (by decide)).1
  rw [h]
  decide

/-- C2: on a non-empty palette, every intensity in [0, 255] is mapped through
index `floor(intensity / 255 * (len - 1))`; the index is within bounds,
intensity 0 gives index 0, intensity 255 gives exactly the last index, and
the palette entry at the index is returned. -/
theorem c2_index_formula (P : List Char) (i : Int) (hP : P ≠ [])
    (h0 : 0 ≤ i) (h1 : i ≤ 255) :
    intensityIndex i P = ⌊(i : ℚ) / 255 * ((P.length : ℚ) - 1)⌋ ∧
    0 ≤ intensityIndex i P ∧ intensityIndex i P ≤ (P.length : Int) - 1 ∧
    intensityIndex 0 P = 0 ∧
    intensityIndex 255 P = (P.length : Int) - 1 ∧
    get_character_for_intensity i P = .ok (mappedChar P i) ∧
    P.get? (intensityIndex i P).toNat = some (mappedChar P i) := by
  obtain ⟨hok, hlo, hhi, hget⟩ := get_character_ok P i hP h0 h1
  have hn : 1 ≤ (P.length : Int) := by
    have := List.length_pos.2 hP
    omega
  have hfloor : intensityIndex i P = ⌊(i : ℚ) / 255 * ((P.length : ℚ) - 1)⌋ := by
    have hcast : (i : ℚ) / 255 * ((P.length : ℚ) - 1) =
        ((i * ((P.length : Int) - 1) : Int) : ℚ) / ((255 : ℕ) : ℚ) := by
      push_cast
      rw [div_mul_eq_mul_div]
    rw [hcast, Rat.floor_intCast_div_natCast]
    unfold intensityIndex
    exact Int.tdiv_eq_ediv (mul_nonneg h0 (by omega)) (by norm_num)
  have hzero : intensityIndex 0 P = 0 := by
    unfold intensityIndex
    rw [zero_mul]
    exact Int.zero_tdiv 255
  have hfull : intensityIndex 255 P = (P.length : Int) - 1 := by
    unfold intensityIndex
    rw [Int.tdiv_eq_ediv (mul_nonneg (by norm_num) (by omega)) (by norm_num),
      Int.mul_ediv_cancel_left _ (by norm_num)]
  exact ⟨hfloor, hlo, hhi, hzero, hfull, hok, hget⟩

/-- C2, witness at the Neutral palette and intensity 128: the index is
`int(128 / 255 * 7) = 3` and the returned character is the palette entry
at index 3. -/
theorem c2_index_formula_witness :
    intensityIndex 128 neutralSet = 3 ∧
    get_character_for_intensity 128 neutralSet = .ok (mappedChar neutralSet 128) := by
  have h := c2_index_formula neutralSet 128 (by decide) (by decide) (by decide)
  exact ⟨by decide, h.2.2.2.2.2.1⟩

/-- C3, counterexample: the label with surrounding whitespace
`"HAPPY "` capitalizes to `"Happy "`, misses the dictionary, and falls back to
the Neutral palette instead of the Happy palette the claim requires. -/
theorem c3_whitespace_counterexample :
    get_emotion_based_char_set "HAPPY " = neutralSet ∧ neutralSet ≠ happySet := by
  exact ⟨by decide, by decide⟩

/-- C3, amended: palette selection never fails and is case-insensitive only up
to Python capitalize (first character uppercased, rest lowercased): case
variants of the four labels without surrounding whitespace select that
palette, while labels with surrounding whitespace, unknown labels and the
empty label all fall back to the Neutral palette. -/
theorem c3_capitalize_selection (s : String) :
    (get_emotion_based_char_set s = happySet ∨
      get_emotion_based_char_set s = sadSet ∨
      get_emotion_based_char_set s = angrySet ∨
      get_emotion_based_char_set s = neutralSet) ∧
    get_emotion_based_char_set "happy" = happySet ∧
    get_emotion_based_char_set "HAPPY" = happySet ∧
    get_emotion_based_char_set "hApPy" = happySet ∧
    get_emotion_based_char_set "sAD" = sadSet ∧
    get_emotion_based_char_set "angry" = angrySet ∧
    get_emotion_based_char_set "NEUTRAL" = neutralSet ∧
    get_emotion_based_char_set "HAPPY " = neutralSet ∧
    get_emotion_based_char_set " happy" = neutralSet ∧
    get_emotion_based_char_set "" = neutralSet ∧
    get_emotion_based_char_set "xyz" = neutralSet := by
  exact ⟨emotion_palette_cases s, by decide, by decide, by decide, by decide,
    by decide, by decide, by decide, by decide, by decide, by decide⟩

/-- C4, counterexample: with the empty palette the mapper fails, but with the
generic `IndexError` of list subscription, not with a dedicated
`InvalidPaletteError` (no such validation exists in the code). -/
theorem c4_empty_palette_counterexample :
    get_character_for_intensity 0 ([] : List Char) = .error .indexError ∧
    get_character_for_intensity 0 ([] : List Char) ≠ .error .invalidPalette := by
  exact ⟨rfl, by decide⟩

/-- C4, amended: for every intensity in [0, 255], including 0 and 255, the
mapper applied to the empty palette fails, with `IndexError` raised by the
list subscription (the computed index is 0, or -1 at intensity 255, and the
empty list accepts no index). -/
theorem c4_empty_palette_index_error (i : Int) (h0 : 0 ≤ i) (h1 : i ≤ 255) :
    get_character_for_intensity i ([] : List Char) = .error .indexError := by
  unfold get_character_for_intensity
  exact pyGet_nil (intensityIndex i [])

/-- C4, witness at intensity 255, the index -1 case. -/
theorem c4_empty_palette_index_error_witness :
    get_character_for_intensity 255 ([] : List Char) = .error .indexError :=
  c4_empty_palette_index_error 255 (by decide) (by decide)

/-- C5, counterexample: intensity 256 is outside [0, 255], yet with the
5-character Happy palette the mapper returns the densest character (index
`int(256 / 255 * 4) = 4`) instead of failing with `InvalidIntensityError`. -/
theorem c5_out_of_range_counterexample :
    get_character_for_intensity 256 happySet = .ok (Char.ofNat 43) ∧
    get_character_for_intensity 256 happySet ≠ .error .invalidIntensity := by
  exact ⟨rfl, by decide⟩

/-- C5, amended: the mapper performs no intensity validation; an out-of-range
intensity is quantized by the same formula, and whenever the resulting index is
an index Python accepts, a character is returned rather than an error: with
the Happy palette every intensity in (255, 318] still returns the densest
character (code point 43). -/
theorem c5_no_intensity_validation (i : Int) (h0 : 255 < i) (h1 : i ≤ 318) :
    get_character_for_intensity i happySet = .ok (Char.ofNat 43) := by
  have hidx : intensityIndex i happySet = 4 := by
    unfold intensityIndex
    have hlen : (((happySet.length : Nat) : Int) - 1) = 4 := by decide
    rw [hlen, Int.tdiv_eq_ediv (by omega) (by norm_num)]
    omega
  unfold get_character_for_intensity
  rw [hidx]
  decide

/-- C5, witness at intensity 256. -/
theorem c5_no_intensity_validation_witness :
    get_character_for_intensity 256 happySet = .ok (Char.ofNat 43) :=
  c5_no_intensity_validation 256 (by decide) (by decide)

/-- C6: for every grid with at least one row, all rows of width w and all
samples in [0, 255], and every non-empty palette, rendering succeeds and
produces exactly the grid rows mapped in row-major order, joined by single
line breaks with no trailing break; every output line has exactly w
characters, and each character is the mapped character of the corresponding
sample. -/
theorem c6_render_structure (grid : List (List Int)) (P : List Char) (w : Nat)
    (hP : P ≠ []) (hrows : ∀ row ∈ grid, row.length = w)
    (hsamples : ∀ row ∈ grid, ∀ p ∈ row, 0 ≤ p ∧ p ≤ 255)
    (hh : 1 ≤ grid.length) :
    render_grid grid P =
      .ok (String.intercalate "\n"
        (grid.map fun row => String.mk (row.map (mappedChar P)))) ∧
    (grid.map fun row => String.mk (row.map (mappedChar P))).length =
      grid.length ∧
    (∀ l ∈ grid.map fun row => String.mk (row.map (mappedChar P)),
      l.length = w) ∧
    (∀ row ∈ grid, ∀ p ∈ row,
      get_character_for_intensity p P = .ok (mappedChar P p)) := by
  have hchar : ∀ row ∈ grid, ∀ p ∈ row,
      get_character_for_intensity p P = .ok (mappedChar P p) := by
    intro row hr p hp
    exact (get_character_ok P p hP (hsamples row hr p hp).1
      (hsamples row hr p hp).2).1
  have hrow : ∀ row ∈ grid,
      render_row row P = .ok (String.mk (row.map (mappedChar P))) := by
    intro row hr
    unfold render_row
    rw [mapM_ok _ (mappedChar P) row (hchar row hr)]
    rfl
  have hgrid : grid.mapM (fun row => render_row row P) =
      .ok (grid.map fun row => String.mk (row.map (mappedChar P))) :=
    mapM_ok _ _ grid hrow
  refine ⟨?_, List.length_map _ _, ?_, hchar⟩
  · unfold render_grid
    rw [hgrid]
    rfl
  · intro l hl
    obtain ⟨row, hr, rfl⟩ := List.mem_map.1 hl
    rw [strMk_length, List.length_map]
    exact hrows row hr

/-- C6, witness on the scenario grid of the specification:
grid `[[0, 255], [128, 64]]` with palette `[space, hash]` renders to
`" #\n  "`, two rows of two characters joined by one line break. -/
theorem c6_render_structure_witness :
    render_grid [[0, 255], [128, 64]] [' ', '#'] = .ok " #\n  " := by
  have h := (c6_render_structure [[0, 255], [128, 64]] [' ', '#'] 2
    (by decide) (by decide) (by decide) (by decide)).1
  rw [h]
  rfl

/-- C7, counterexample: when the image path does not exist the originating
error is `FileNotFoundError`, but `generate_text_art` returns `SystemExit 1`
(it catches every exception, prints it and calls `sys.exit(1)`): the
originating error is not propagated unchanged to the caller. -/
theorem c7_error_swallow_counterexample :
    generate_text_art false none (fun _ _ => 0) 100 "Neutral" =
      .error (.systemExit 1) ∧
    generate_text_art false none (fun _ _ => 0) 100 "Neutral" ≠
      .error .fileNotFound ∧
    load_and_process_image false none (fun _ _ => 0) 100 =
      .error .fileNotFound := by
  refine ⟨rfl, ?_, rfl⟩
  decide

/-- C7, amended: on every input, `generate_text_art` either aborts with
`SystemExit` status 1 (any stage failure is caught, printed and converted to
a process exit, so the originating error is swallowed rather than
propagated), or the whole pipeline succeeded and the complete rendered
artifact is returned; a partial artifact is never returned. -/
theorem c7_exit_on_failure (pe : Bool) (dec : Option SrcImage)
    (sa : Nat → Nat → Int) (w : Int) (em : String) :
    generate_text_art pe dec sa w em = .error (.systemExit 1) ∨
    ∃ grid s, load_and_process_image pe dec sa w = .ok grid ∧
      render_grid grid (get_emotion_based_char_set em) = .ok s ∧
      generate_text_art pe dec sa w em = .ok s := by
  cases hload : load_and_process_image pe dec sa w with
  | error e =>
    left
    simp [generate_text_art, pipelineRun, hload]
  | ok grid =>
    cases hrender : render_grid grid (get_emotion_based_char_set em) with
    | error e =>
      left
      simp [generate_text_art, pipelineRun, hload, hrender]
    | ok s =>
      right
      refine ⟨grid, s, rfl, hrender, ?_⟩
      simp [generate_text_art, pipelineRun, hload, hrender]

/-- C8, counterexample: with `desiredWidth = 0` and a missing image path,
`load_and_process_image` fails with `FileNotFoundError`, not with an
`InvalidWidthError` raised before delegating: the path check and the codec
come first and no width validation exists in the function. -/
theorem c8_width_counterexample :
    load_and_process_image false none (fun _ _ => 0) 0 =
      .error .fileNotFound ∧
    load_and_process_image false none (fun _ _ => 0) 0 ≠
      .error .invalidWidth := by
  exact ⟨rfl, by decide⟩

/-- C8, amended: `load_and_process_image` performs no width validation of its
own; for every `desiredWidth <= 0` it fails with either `FileNotFoundError`
(missing path, checked first) or the generic wrapped `ValueError` of the
processing block (the codec rejecting the nonpositive resize target), never
with a dedicated `InvalidWidthError`. -/
theorem c8_no_width_validation (pe : Bool) (dec : Option SrcImage)
    (sa : Nat → Nat → Int) (w : Int) (hw : w ≤ 0) :
    load_and_process_image pe dec sa w = .error .fileNotFound ∨
    load_and_process_image pe dec sa w = .error .valueError := by
  unfold load_and_process_image
  cases pe with
  | false => left; rfl
  | true =>
    cases dec with
    | none => right; rfl
    | some src =>
      by_cases hsw : src.width = 0
      · right
        simp [hsw]
      · right
        simp [hsw, hw]

/-- C8, witness at `desiredWidth = 0` with a missing path. -/
theorem c8_no_width_validation_witness :
    load_and_process_image false none (fun _ _ => 0) 0 =
      .error .fileNotFound ∨
    load_and_process_image false none (fun _ _ => 0) 0 =
      .error .valueError :=
  c8_no_width_validation false none (fun _ _ => 0) 0 (by decide)

/-- C9: every label selects one of the four fixed palettes, whose lengths are
5, 5, 5 and 8, hence non-empty; consequently, for every in-range intensity the
mapper applied to a selected palette succeeds, so the empty-palette failure
branch is unreachable in the full pipeline. -/
theorem c9_palette_safety (s : String) (i : Int) (h0 : 0 ≤ i) (h1 : i ≤ 255) :
    (get_emotion_based_char_set s = happySet ∨
      get_emotion_based_char_set s = sadSet ∨
      get_emotion_based_char_set s = angrySet ∨
      get_emotion_based_char_set s = neutralSet) ∧
    ((get_emotion_based_char_set s).length = 5 ∨
      (get_emotion_based_char_set s).length = 8) ∧
    get_emotion_based_char_set s ≠ [] ∧
    ∃ c, get_character_for_intensity i (get_emotion_based_char_set s) =
      .ok c := by
  have hc := emotion_palette_cases s
  have hne : get_emotion_based_char_set s ≠ [] := by
    rcases hc with h | h | h | h <;> rw [h] <;> decide
  have hlen : (get_emotion_based_char_set s).length = 5 ∨
      (get_emotion_based_char_set s).length = 8 := by
    rcases hc with h | h | h | h <;> rw [h] <;> decide
  exact ⟨hc, hlen, hne,
    ⟨mappedChar (get_emotion_based_char_set s) i,
      (get_character_ok (get_emotion_based_char_set s) i hne h0 h1).1⟩⟩

/-- C9, witness at an unknown label and intensity 0: some character is
returned from the fallback Neutral palette. -/
theorem c9_palette_safety_witness :
    ∃ c, get_character_for_intensity 0 (get_emotion_based_char_set "xyz") =
      .ok c :=
  (c9_palette_safety "xyz" 0 (by decide) (by decide)).2.2.2

/-- C10: whenever `desiredWidth * aspect_ratio * 0.5 < 1`, equivalently
`desiredWidth * source_height < 2 * source_width`, the computed height is 0
(truncated, not clamped); and the rendering loop applied to a grid with zero
rows produces the empty string: no characters, no line breaks, no error. -/
theorem c10_zero_height_empty_render (cs : List Char) (srcW srcH : Nat)
    (w : Int) (hW : 0 < srcW) (hw : 1 ≤ w)
    (hsmall : w * srcH < 2 * (srcW : Int)) :
    computeHeight srcW srcH w = 0 ∧ render_grid [] cs = .ok "" := by
  refine ⟨?_, rfl⟩
  rw [computeHeight_eq srcW srcH w hW (by omega)]
  exact Int.ediv_eq_zero_of_lt
    (mul_nonneg (by omega) (Int.natCast_nonneg srcH)) hsmall

/-- C10, witness at a 1x1 source with desiredWidth 1 and the Neutral
palette. -/
theorem c10_zero_height_empty_render_witness :
    computeHeight 1 1 1 = 0 ∧ render_grid [] neutralSet = .ok "" :=
  c10_zero_height_empty_render neutralSet 1 1 1 (by decide) (by decide)
    (by decide)

end TextArt
